import Mathlib

/-!
Shallow embedding of the token PnL analyzer (src/token_pnl_analyzer.py).

Modelling conventions:
  * Monetary and token amounts are exact rationals; the Python source uses
    floating point, but every spec-level expectation is stated in exact
    decimal arithmetic, which the rationals realise.
  * Raw on-chain integers (wei values, unscaled ERC-20 amounts, gas) are
    naturals, scaled by powers of ten exactly where the source divides
    by 10**decimals or 1e18.
  * External collaborators (Etherscan endpoints, the web3 token contract,
    price feeds) are modelled as an explicit environment record: each field
    holds the data the corresponding remote call would return for this
    analysis run.  A fetch failure is a Boolean flag or an Except value.
  * Address normalisation: the source checksums the input addresses and then
    compares everything through .lower(); checksumming only changes letter
    case, so the model lowercases directly at the comparison sites, exactly
    where the source calls .lower().
  * Python raising an exception out of analyze_pnl is modelled as
    Except.error carrying the message text.
-/

deriving instance DecidableEq for Except

namespace EthPnl

attribute [local semireducible] Rat.add Rat.mul Rat.sub Rat.inv

/-- Characterwise string length (the Python len on a hex string). -/
def strLen (s : String) : ℕ := s.data.length

/-- First n characters of a string (the Python slice up to n). -/
def strTake (s : String) (n : ℕ) : String := ⟨s.data.take n⟩

/-- All but the first n characters of a string (the Python slice from n). -/
def strDrop (s : String) (n : ℕ) : String := ⟨s.data.drop n⟩

/-- Characterwise lowercase, behaviourally the standard string lowercase,
defined structurally over the character list. -/
def strLower (s : String) : String := ⟨s.data.map Char.toLower⟩

/-- One ERC-20 transfer row as returned by the ledger indexing service
(tokentx): the fields the analyzer reads.  The raw value is the unscaled
integer amount; tokenDecimal may be absent, in which case callers supply
their own default (18 in the classifier, the contract decimals in the
accountant, as in the source). -/
structure TransferLeg where
  hash : String
  contractAddress : String
  fromAddr : String
  toAddr : String
  value : ℕ
  tokenDecimal : Option ℕ
  timeStamp : ℕ
  gasUsed : ℕ
  gasPrice : ℕ
deriving Repr, DecidableEq, Inhabited

/-- Static stablecoin registry entry (symbol, decimals). -/
structure StablecoinRecord where
  symbol : String
  decimals : ℕ
deriving Repr, DecidableEq, Inhabited

/-- The fixed stablecoin table of TokenPnLAnalyzer.__init__ (lowercase
addresses), including the deprecated SAI entry. -/
def stablecoins : List (String × StablecoinRecord) :=
  [ ("0xa0b86991c6218b36c1d19d4a2e9eb0ce3606eb48", ⟨"USDC", 6⟩),
    ("0xdac17f958d2ee523a2206206994597c13d831ec7", ⟨"USDT", 6⟩),
    ("0x6b175474e89094c44da98b954eedeac495271d0f", ⟨"DAI", 18⟩),
    ("0x853d955acef822db058eb8505911ed77f175b99e", ⟨"FRAX", 18⟩),
    ("0x5f98805a4e8be255a32880fdec7f6728c6568ba0", ⟨"LUSD", 18⟩),
    ("0x2791bca1f2de4661ed88a30c99a7a9449aa84174", ⟨"USDC.e", 6⟩),
    ("0x4fabb145d64652a948d72533023f6e7a623c7c53", ⟨"BUSD", 18⟩),
    ("0x056fd409e1d7a124bd7017459dfea2f387b6d5cd", ⟨"GUSD", 2⟩),
    ("0x57ab1ec28d129707052df4df418d58a2d46d5f51", ⟨"sUSD", 18⟩),
    ("0x0000000000085d4780b73119b644ae5ecd22b376", ⟨"TUSD", 18⟩),
    ("0x8e870d67f660d95d5be530380d0ec0bd388289e1", ⟨"USDP", 18⟩),
    ("0x956f47f50a910163d8bf957cf5846d573e7f87ca", ⟨"FEI", 18⟩),
    ("0xdb25f211ab05b1c97d595516f45794528a807ad8", ⟨"EURS", 2⟩),
    ("0x89d24a6b4ccb1b6faa2625fe562bdd9a23260359", ⟨"SAI", 18⟩) ]

/-- is_stablecoin: case-insensitive membership in the stablecoin table. -/
def is_stablecoin (address : String) : Bool :=
  (stablecoins.lookup (strLower address)).isSome

/-- get_stablecoin_info: the table entry when recognised, none otherwise. -/
def get_stablecoin_info (address : String) : Option StablecoinRecord :=
  if is_stablecoin address then stablecoins.lookup (strLower address) else none

/-- The DEX method-signature table (first four bytes of call input, hex). -/
def method_signatures : List (String × String) :=
  [ ("0x38ed1739", "swapExactTokensForTokens"),
    ("0x8803dbee", "swapTokensForExactTokens"),
    ("0x7ff36ab5", "swapExactETHForTokens"),
    ("0x4a25d94a", "swapTokensForExactETH"),
    ("0x18cbafe5", "swapExactTokensForETH"),
    ("0xfb3bdb41", "swapETHForExactTokens"),
    ("0xc04b8d59", "exactInput"),
    ("0xb858183f", "exactOutput"),
    ("0x414bf389", "exactInputSingle"),
    ("0xdb3e2198", "exactOutputSingle"),
    ("0x1f00ca74", "swapExactTokensForTokensSupportingFeeOnTransferTokens"),
    ("0x791ac947", "swapExactTokensForETHSupportingFeeOnTransferTokens"),
    ("0x5c11d795", "swapExactETHForTokensSupportingFeeOnTransferTokens"),
    ("0x7c025200", "swap"),
    ("0xe449022e", "uniswapV3Swap"),
    ("0x84bd6d29", "clipperSwap"),
    ("0x415565b0", "transformERC20"),
    ("0xc7e474c8", "sellToUniswap"),
    ("0x90411a32", "batchFillRfqOrders"),
    ("0x762e7e6f", "batchSwap"),
    ("0x945bcec9", "swap"),
    ("0xd9627aa4", "swapOnUniswap"),
    ("0xb2f1e6db", "swapOnUniswapFork") ]

/-- The known buy-shaped method signatures. -/
def buy_methods : List String :=
  ["0x7ff36ab5", "0xfb3bdb41", "0x5c11d795", "0x414bf389", "0xdb3e2198"]

/-- The known sell-shaped method signatures. -/
def sell_methods : List String :=
  ["0x4a25d94a", "0x18cbafe5", "0x791ac947", "0x414bf389", "0xdb3e2198"]

/-- Result row of eth_getTransactionByHash as the analyzer reads it: the
direct wei value and the raw call input (hex string with 0x prefix). -/
structure TxRecord where
  valueWei : ℕ
  inputData : String
deriving Repr, DecidableEq, Inhabited

/-- One receipt log entry: emitting contract address and topics. -/
structure LogEntry where
  address : String
  topics : List String
deriving Repr, DecidableEq, Inhabited

/-- Transaction receipt as read by get_transaction: success status and logs. -/
structure Receipt where
  statusOk : Bool
  logs : List LogEntry
deriving Repr, DecidableEq, Inhabited

/-- One internal transaction row (txlistinternal): its raw wei value. -/
structure InternalTx where
  valueWei : ℕ
deriving Repr, DecidableEq, Inhabited

/-- The external-collaborator environment for one analysis run.  Each field
is the data the corresponding remote call returns during the run; Option or
Except encodes an absent result or a raised error. -/
structure Env where
  /-- eth_getTransactionByHash per hash. -/
  txByHash : String → Option TxRecord
  /-- eth_getTransactionReceipt per hash. -/
  receipt : String → Option Receipt
  /-- txlistinternal rows per hash (empty when none or on error). -/
  internalTxs : String → List InternalTx
  /-- tokentx rows per transaction hash, as used by
  get_token_transaction_transfers (empty on error). -/
  tokenTxByHash : String → List TransferLeg
  /-- a data-source error raised inside get_transaction for this hash
  (caught there and degraded to the placeholder value). -/
  txFetchError : String → Bool
  /-- outcome of get_token_transfers for the analysed (wallet, token) pair:
  the rows, or the message of the exception it raised. -/
  transfersResult : Except String (List TransferLeg)
  /-- token contract (name, symbol, decimals) when loading succeeds. -/
  tokenInfo : Option (String × String × ℕ)
  /-- balanceOf for the wallet, already scaled by the token decimals. -/
  balanceResult : Option ℚ
  /-- get_token_price result (token price in ETH). -/
  tokenPrice : Option ℚ
  /-- get_eth_price result (ETH price in USD). -/
  ethPriceUsd : Option ℚ

/-- Scale a raw wei amount to ETH (division by 1e18). -/
def weiToEth (n : ℕ) : ℚ := (n : ℚ) / 10 ^ 18

/-- convert_stablecoin_to_eth: unrecognised addresses pass through
unchanged; recognised stablecoins are converted through the current ETH/USD
price (default 2000 when the feed returns nothing or zero, matching the
falsy check in the source), with the EUR-pegged EURS scaled by 1.1. -/
def convert_stablecoin_to_eth (env : Env) (amount : ℚ) (stablecoin_address : String) : ℚ :=
  if ¬ is_stablecoin stablecoin_address then amount
  else
    match stablecoins.lookup (strLower stablecoin_address) with
    | none => amount
    | some sc =>
      let eth_price : ℚ :=
        match env.ethPriceUsd with
        | some p => if p = 0 then 2000 else p
        | none => 2000
      let stablecoin_usd_rate : ℚ := if sc.symbol = "EURS" then 11 / 10 else 1
      (amount * stablecoin_usd_rate) / eth_price

/-- Method signature of a transaction: first ten characters of the call
input when it is at least that long. -/
def methodSigOf (inputData : String) : Option String :=
  if 10 ≤ strLen inputData then some (strTake inputData 10) else none

/-- Classification of a transaction from its method signature alone, as in
get_transaction: recognised buy methods first, then sell methods, then a
generic swap; unrecognised or absent signatures leave it unknown. -/
def txTypeFromSig (inputData : String) : String :=
  match methodSigOf inputData with
  | none => "unknown"
  | some sig =>
    if (method_signatures.lookup sig).isSome then
      if buy_methods.contains sig then "buy"
      else if sell_methods.contains sig then "sell"
      else "swap"
    else "unknown"

/-- Lowercase hexadecimal digit test. -/
def isHexDigitLower (c : Char) : Bool :=
  c.isDigit || (Char.ofNat 97 ≤ c && c ≤ Char.ofNat 102)

/-- Model of the Web3.is_address check on the scanned candidates, restricted
to the lowercase hexadecimal form (mixed-case candidates also validate in
the source when their EIP-55 checksum matches; the scanned call data is
lowercase hex, so the lowercase form is the operative one). -/
def isAddressStr (s : String) : Bool :=
  strLen s = 42 && strTake s 2 = "0x" && (strDrop s 2).data.all isHexDigitLower

/-- The methods whose call input is scanned for a token path. -/
def pathScanMethods : List String :=
  ["0x38ed1739", "0x8803dbee", "0x18cbafe5", "0x7ff36ab5"]

/-- Best-effort address scan over the call input past the signature: every
window of forty hex characters at an even offset that parses as an address
is collected in lowercase, as in get_transaction. -/
def scanInvolvedTokens (inputData : String) : List String :=
  let dataWithoutSig := strDrop inputData 10
  let m := strLen dataWithoutSig - 40
  (List.range' 0 ((m + 1) / 2) 2).filterMap (fun i =>
    let potential := "0x" ++ strTake (strDrop dataWithoutSig i) 40
    if isAddressStr potential then some (strLower potential) else none)

/-- The canonical ERC-20 Transfer event topic. -/
def transferTopic : String :=
  "0xddf252ad1be2c89b69c2b068fc378daa952ba7f163c4a11628f55a4df523b3ef"

/-- Receipt-log pass of get_transaction: on a successful receipt, the
address of every Transfer-event log (at least three topics) is appended to
the involved-token list unless already present. -/
def addLogTokens (recpt : Option Receipt) (acc : List String) : List String :=
  match recpt with
  | none => acc
  | some r =>
    if r.statusOk then
      r.logs.foldl (fun acc log =>
        if 3 ≤ log.topics.length && log.topics.head? == some transferTopic then
          let contractAddr := strLower log.address
          if acc.contains contractAddr then acc else acc ++ [contractAddr]
        else acc) acc
    else acc

/-- The involved-token list of get_transaction: the deduplicated input-data
scan (only for recognised path-carrying methods), then the receipt-log
addresses.  The source deduplicates the scan through a Python set; the model
keeps first occurrences. -/
def involvedTokensOf (env : Env) (txHash : String) : List String :=
  let fromScan : List String :=
    match env.txByHash txHash with
    | none => []
    | some tr =>
      match methodSigOf tr.inputData with
      | none => []
      | some sig =>
        if (method_signatures.lookup sig).isSome && pathScanMethods.contains sig then
          (scanInvolvedTokens tr.inputData).dedup
        else []
  addLogTokens (env.receipt txHash) fromScan

/-- Direct ETH value of a transaction (the value field of the transaction
record, scaled to ETH; zero when the record is absent). -/
def directEthValue (env : Env) (txHash : String) : ℚ :=
  match env.txByHash txHash with
  | none => 0
  | some tr => weiToEth tr.valueWei

/-- Sum of the internal-transaction values of a hash, scaled to ETH, with
zero-valued rows skipped as in the source. -/
def internalValueOf (env : Env) (txHash : String) : ℚ :=
  (env.internalTxs txHash).foldl (fun acc itx =>
    if itx.valueWei ≠ 0 then acc + weiToEth itx.valueWei else acc) 0

/-- Method-signature classification of a hash (unknown when the transaction
record is absent). -/
def txTypeOf (env : Env) (txHash : String) : String :=
  match env.txByHash txHash with
  | none => "unknown"
  | some tr => txTypeFromSig tr.inputData

/-- The nominal placeholder value used when no value can be determined. -/
def defaultTxValue : ℚ := 1 / 10000

/-- Result record of get_transaction. -/
structure TxDetails where
  eth_value : ℚ
  internal_value : ℚ
  tx_type : String
  involved_tokens : List String
deriving Repr, DecidableEq, Inhabited

/-- total_value after the prefer-internal-for-sells resolution step: the
internal value replaces the direct value when the transaction classifies as
a sell and the internal value is positive. -/
def totalValueAfterSell (env : Env) (txHash : String) : ℚ :=
  if txTypeOf env txHash = "sell" ∧ 0 < internalValueOf env txHash
  then internalValueOf env txHash
  else directEthValue env txHash

/-- total_value after the use-internal-when-zero resolution step: the
internal value is used whenever the running value is still zero and the
internal value is positive. -/
def totalValueAfterZero (env : Env) (txHash : String) : ℚ :=
  if totalValueAfterSell env txHash = 0 ∧ 0 < internalValueOf env txHash
  then internalValueOf env txHash
  else totalValueAfterSell env txHash

/-- The externally reported value of a transaction: the resolution chain,
falling back to the nominal placeholder when the value is still zero; a
data-source error inside get_transaction also degrades to the placeholder. -/
def resolvedTxValue (env : Env) (txHash : String) : ℚ :=
  if env.txFetchError txHash then defaultTxValue
  else if totalValueAfterZero env txHash = 0 then defaultTxValue
  else totalValueAfterZero env txHash

/-- get_transaction: direct value, method-signature classification,
involved-token collection, internal-value summation, then the value
resolution policy.  A data-source error inside the body is caught and
degrades the value to the placeholder (modelled as the error being raised
by the first fetch, before any field was populated). -/
def get_transaction (env : Env) (txHash : String) : TxDetails :=
  { eth_value := resolvedTxValue env txHash,
    internal_value := if env.txFetchError txHash then 0 else internalValueOf env txHash,
    tx_type := if env.txFetchError txHash then "unknown" else txTypeOf env txHash,
    involved_tokens := if env.txFetchError txHash then [] else involvedTokensOf env txHash }

/-- Decimals a transfer leg is scaled by, with the caller-supplied default
when the row has no tokenDecimal field. -/
def legDecimals (t : TransferLeg) (dflt : ℕ) : ℕ := t.tokenDecimal.getD dflt

/-- Scaled amount of a transfer leg. -/
def legAmount (t : TransferLeg) (dflt : ℕ) : ℚ := (t.value : ℚ) / 10 ^ legDecimals t dflt

/-- First recognised stablecoin among the involved tokens of a transaction
(the source loop breaks at the first hit). -/
def stablecoinAddressOf (env : Env) (txHash : String) : Option String :=
  (get_transaction env txHash).involved_tokens.find? (fun tok => is_stablecoin tok)

/-- Net stablecoin flow seen by the wallet in the transfers of one
transaction: amounts of the given stablecoin received by the wallet count
positively, amounts sent count negatively, scaled by the registry decimals
(default 18 when the registry misses the entry, as in the source dictionary
access). -/
def stablecoinAmountOf (env : Env) (txHash wallet scAddr : String) : ℚ :=
  let scDec : ℕ :=
    match get_stablecoin_info scAddr with
    | some sc => sc.decimals
    | none => 18
  (env.tokenTxByHash txHash).foldl (fun acc transfer =>
    if strLower transfer.contractAddress = scAddr then
      let v : ℚ := (transfer.value : ℚ) / 10 ^ scDec
      if strLower transfer.toAddr = wallet then acc + v
      else if strLower transfer.fromAddr = wallet then acc - v
      else acc
    else acc) 0

/-- The transfers of one transaction that move the tracked token and touch
the wallet (wallet and token already lowercase). -/
def ourTokenTransfers (env : Env) (txHash wallet token : String) : List TransferLeg :=
  (env.tokenTxByHash txHash).filter (fun t =>
    strLower t.contractAddress = token ∧
    (strLower t.fromAddr = wallet ∨ strLower t.toAddr = wallet))

/-- Number of legs received by the wallet. -/
def incomingCount (legs : List TransferLeg) (wallet : String) : ℕ :=
  (legs.filter (fun t => strLower t.toAddr = wallet)).length

/-- Number of legs sent by the wallet and not also received by it (the
source counts each leg in at most one direction, incoming first). -/
def outgoingCount (legs : List TransferLeg) (wallet : String) : ℕ :=
  (legs.filter (fun t => ¬ strLower t.toAddr = wallet ∧ strLower t.fromAddr = wallet)).length

/-- Token amount accumulated by the classifier: every leg received or sent
by the wallet contributes its amount (default decimals 18 here, as in the
source), each leg counted once. -/
def classifierTokenAmount (legs : List TransferLeg) (wallet : String) : ℚ :=
  legs.foldl (fun acc t =>
    if strLower t.toAddr = wallet then acc + legAmount t 18
    else if strLower t.fromAddr = wallet then acc + legAmount t 18
    else acc) 0

/-- The classifier decision chain of analyze_transaction_type, after the
empty-transfer early return: the method-signature classification wins when
conclusive; else the stable-asset flow rule (on the first involved
stablecoin); else the raw transfer-direction fallback. -/
def classifiedTxType (env : Env) (txHash wallet token : String) : String :=
  let txd := get_transaction env txHash
  let our := ourTokenTransfers env txHash wallet token
  let incoming := incomingCount our wallet
  let outgoing := outgoingCount our wallet
  if txd.tx_type ≠ "unknown" then txd.tx_type
  else
    match stablecoinAddressOf env txHash with
    | some scAddr =>
      let scAmount := stablecoinAmountOf env txHash wallet scAddr
      if 0 < scAmount ∧ 0 < outgoing then "sell"
      else if scAmount < 0 ∧ 0 < incoming then "buy"
      else "unknown"
    | none =>
      if 0 < incoming ∧ outgoing = 0 then "buy"
      else if 0 < outgoing ∧ incoming = 0 then "sell"
      else "unknown"

/-- analyze_transaction_type: lowercases the addresses, returns
(unknown, 0) when no transfer of the tracked token touches the wallet, and
otherwise pairs the decision-chain intent with the accumulated token
amount. -/
def analyze_transaction_type (env : Env) (txHash walletAddress tokenAddress : String) :
    String × ℚ :=
  let token := strLower tokenAddress
  let wallet := strLower walletAddress
  let our := ourTokenTransfers env txHash wallet token
  if our.isEmpty then ("unknown", 0)
  else (classifiedTxType env txHash wallet token, classifierTokenAmount our wallet)

/-- Per-transaction entry of the report transaction list. -/
structure TxData where
  hash : String
  timestamp : ℕ
  txType : String
  eth_value : ℚ
  gas_cost : ℚ
  token_amount : ℚ
  has_stablecoin : Bool
  stablecoin_address : Option String
deriving Repr, DecidableEq, Inhabited

/-- The final report of analyze_pnl. -/
structure PnlReport where
  token_name : String
  token_symbol : String
  buy_count : ℕ
  sell_count : ℕ
  total_tokens_bought : ℚ
  total_tokens_sold : ℚ
  current_balance : ℚ
  total_in_eth : ℚ
  total_out_eth : ℚ
  total_gas_eth : ℚ
  current_price_eth : ℚ
  current_holdings_eth : ℚ
  current_holdings_usd : ℚ
  realized_pnl_eth : ℚ
  realized_pnl_usd : ℚ
  unrealized_pnl_eth : ℚ
  unrealized_pnl_usd : ℚ
  total_pnl_eth : ℚ
  total_pnl_usd : ℚ
  eth_price_usd : ℚ
  transactions : List TxData
deriving Repr, DecidableEq, Inhabited

/-- Stable insertion of a leg after all legs with an earlier or equal
timestamp. -/
def insertByTimestamp (t : TransferLeg) : List TransferLeg → List TransferLeg
  | [] => [t]
  | u :: us => if t.timeStamp < u.timeStamp then t :: u :: us else u :: insertByTimestamp t us

/-- Stable ascending sort by timestamp, as the sorted call of analyze_pnl. -/
def sortByTimestamp (ts : List TransferLeg) : List TransferLeg :=
  ts.foldl (fun acc t => insertByTimestamp t acc) []

/-- Grouping of transfer rows by transaction hash, groups in first-seen
order and rows in list order within a group, as the dictionary loop of
analyze_pnl. -/
def groupByHash (ts : List TransferLeg) : List (String × List TransferLeg) :=
  ts.foldl (fun acc t =>
    if acc.any (fun p => p.1 = t.hash) then
      acc.map (fun p => if p.1 = t.hash then (p.1, p.2 ++ [t]) else p)
    else acc ++ [(t.hash, [t])]) []

/-- Running accumulator of the analyze_pnl transaction loop. -/
structure FoldState where
  buy_count : ℕ
  sell_count : ℕ
  total_tokens_bought : ℚ
  total_tokens_sold : ℚ
  total_in_eth : ℚ
  total_out_eth : ℚ
  total_gas_eth : ℚ
  transactions : List TxData
deriving Repr, DecidableEq, Inhabited

/-- The empty accumulator. -/
def initialFoldState : FoldState := ⟨0, 0, 0, 0, 0, 0, 0, []⟩

/-- Token amount bought in a grouped transaction: sum over the group legs
received by the wallet that move the tracked token, scaled by each leg
decimals with the contract decimals as default. -/
def buyAmountIn (grp : List TransferLeg) (wallet token : String) (tokenDecimals : ℕ) : ℚ :=
  grp.foldl (fun acc t =>
    if strLower t.toAddr = wallet ∧ strLower t.contractAddress = token then
      acc + legAmount t tokenDecimals
    else acc) 0

/-- Token amount sold in a grouped transaction: sum over the group legs
sent by the wallet that move the tracked token. -/
def sellAmountOut (grp : List TransferLeg) (wallet token : String) (tokenDecimals : ℕ) : ℚ :=
  grp.foldl (fun acc t =>
    if strLower t.fromAddr = wallet ∧ strLower t.contractAddress = token then
      acc + legAmount t tokenDecimals
    else acc) 0

/-- Stablecoin amount paid out by the wallet in a transaction (used by the
buy branch when the resolved value is zero). -/
def buyStablecoinPaid (env : Env) (txHash wallet scAddr : String) : ℚ :=
  let scDec : ℕ :=
    match get_stablecoin_info scAddr with
    | some sc => sc.decimals
    | none => 18
  (env.tokenTxByHash txHash).foldl (fun acc transfer =>
    if strLower transfer.contractAddress = strLower scAddr then
      if strLower transfer.fromAddr = wallet then
        acc + (transfer.value : ℚ) / 10 ^ scDec
      else acc
    else acc) 0

/-- Stablecoin amount received by the wallet in a transaction (used by the
sell branch when the resolved value is zero). -/
def sellStablecoinReceived (env : Env) (txHash wallet scAddr : String) : ℚ :=
  let scDec : ℕ :=
    match get_stablecoin_info scAddr with
    | some sc => sc.decimals
    | none => 18
  (env.tokenTxByHash txHash).foldl (fun acc transfer =>
    if strLower transfer.contractAddress = strLower scAddr then
      if strLower transfer.toAddr = wallet then
        acc + (transfer.value : ℚ) / 10 ^ scDec
      else acc
    else acc) 0

/-- One iteration of the analyze_pnl transaction loop: skip irrelevant
groups; otherwise classify, value and fold the transaction into the
accumulator, appending its report entry. -/
def processTxGroup (env : Env) (wallet token : String) (tokenDecimals : ℕ)
    (current_price_eth : ℚ) (st : FoldState) (grp : String × List TransferLeg) : FoldState :=
  let txHash := grp.1
  let txGroup := grp.2
  let isRelevant := txGroup.any (fun t =>
    (strLower t.toAddr = wallet ∨ strLower t.fromAddr = wallet) ∧
    strLower t.contractAddress = token)
  if ¬ isRelevant then st
  else
    let timestamp := (txGroup.head?.map (fun t => t.timeStamp)).getD 0
    let classified := analyze_transaction_type env txHash wallet token
    let txType := classified.1
    let txValue := get_transaction env txHash
    let gasUsed := (txGroup.head?.map (fun t => t.gasUsed)).getD 0
    let gasPrice := (txGroup.head?.map (fun t => t.gasPrice)).getD 0
    let gasCost : ℚ := ((gasUsed * gasPrice : ℕ) : ℚ) / 10 ^ 18
    let ethValue0 := txValue.eth_value
    let scAddr := txValue.involved_tokens.find? (fun tok => is_stablecoin tok)
    if txType = "buy" then
      let amountIn := buyAmountIn txGroup wallet token tokenDecimals
      let ethValue :=
        if ethValue0 = 0 then
          match scAddr with
          | some sc =>
            let scAmt := buyStablecoinPaid env txHash wallet sc
            if 0 < scAmt then convert_stablecoin_to_eth env scAmt sc
            else amountIn * current_price_eth
          | none => amountIn * current_price_eth
        else ethValue0
      let txData : TxData :=
        { hash := txHash, timestamp := timestamp, txType := txType,
          eth_value := ethValue, gas_cost := gasCost, token_amount := amountIn,
          has_stablecoin := scAddr.isSome, stablecoin_address := scAddr }
      { st with
        buy_count := st.buy_count + 1,
        total_tokens_bought := st.total_tokens_bought + amountIn,
        total_in_eth := st.total_in_eth + ethValue,
        total_gas_eth := st.total_gas_eth + gasCost,
        transactions := st.transactions ++ [txData] }
    else if txType = "sell" then
      let amountOut := sellAmountOut txGroup wallet token tokenDecimals
      let ethValue :=
        if ethValue0 = 0 then
          match scAddr with
          | some sc =>
            let scAmt := sellStablecoinReceived env txHash wallet sc
            if 0 < scAmt then convert_stablecoin_to_eth env scAmt sc
            else amountOut * current_price_eth
          | none => amountOut * current_price_eth
        else ethValue0
      let txData : TxData :=
        { hash := txHash, timestamp := timestamp, txType := txType,
          eth_value := ethValue, gas_cost := gasCost, token_amount := amountOut,
          has_stablecoin := scAddr.isSome, stablecoin_address := scAddr }
      { st with
        sell_count := st.sell_count + 1,
        total_tokens_sold := st.total_tokens_sold + amountOut,
        total_out_eth := st.total_out_eth + ethValue,
        total_gas_eth := st.total_gas_eth + gasCost,
        transactions := st.transactions ++ [txData] }
    else
      let txData : TxData :=
        { hash := txHash, timestamp := timestamp, txType := txType,
          eth_value := ethValue0, gas_cost := gasCost, token_amount := 0,
          has_stablecoin := scAddr.isSome, stablecoin_address := scAddr }
      { st with
        total_gas_eth := st.total_gas_eth + gasCost,
        transactions := st.transactions ++ [txData] }

/-- The token price used for valuation fallbacks: the market feed result,
or the tiny sentinel price when none is available. -/
def currentPriceEthOf (env : Env) : ℚ :=
  match env.tokenPrice with
  | some p => p
  | none => 1 / 10 ^ 7

/-- The ETH/USD price used in the report: the feed result, or 2000 when the
feed returns nothing or zero (the falsy check of the source). -/
def ethPriceUsdOf (env : Env) : ℚ :=
  match env.ethPriceUsd with
  | some p => if p = 0 then 2000 else p
  | none => 2000

/-- The transaction loop of analyze_pnl: sort the transfers by timestamp,
group them by transaction hash, and fold each group into the accumulator
in order. -/
def pnlFold (env : Env) (wallet token : String) (tokenDecimals : ℕ) (price : ℚ)
    (transfers : List TransferLeg) : FoldState :=
  (groupByHash (sortByTimestamp transfers)).foldl
    (processTxGroup env wallet token tokenDecimals price) initialFoldState

/-- Finalisation of analyze_pnl on a non-empty transfer batch: run the
transaction loop and assemble the report, with average-cost realized and
unrealized PnL (cost basis total_in_eth / total_tokens_bought when anything
was bought, zero otherwise). -/
def buildReport (env : Env) (wallet_address token_address : String)
    (transfers : List TransferLeg) : PnlReport :=
  let wallet := strLower wallet_address
  let token := strLower token_address
  let tokenInfo := env.tokenInfo.getD ("Unknown Token", "????", 18)
  let current_balance := env.balanceResult.getD 0
  let current_price_eth := currentPriceEthOf env
  let eth_price_usd := ethPriceUsdOf env
  let st := pnlFold env wallet token tokenInfo.2.2 current_price_eth transfers
  let current_holdings_eth := current_balance * current_price_eth
  let current_holdings_usd := current_holdings_eth * eth_price_usd
  let cost_basis_per_token : ℚ :=
    if 0 < st.total_tokens_bought then st.total_in_eth / st.total_tokens_bought else 0
  let realized_pnl_eth : ℚ :=
    if 0 < st.total_tokens_bought then
      st.total_out_eth - st.total_tokens_sold * cost_basis_per_token
    else 0
  let unrealized_pnl_eth : ℚ :=
    if 0 < st.total_tokens_bought then
      current_holdings_eth - current_balance * cost_basis_per_token
    else 0
  let realized_pnl_usd := realized_pnl_eth * eth_price_usd
  let unrealized_pnl_usd := unrealized_pnl_eth * eth_price_usd
  { token_name := tokenInfo.1,
    token_symbol := tokenInfo.2.1,
    buy_count := st.buy_count,
    sell_count := st.sell_count,
    total_tokens_bought := st.total_tokens_bought,
    total_tokens_sold := st.total_tokens_sold,
    current_balance := current_balance,
    total_in_eth := st.total_in_eth,
    total_out_eth := st.total_out_eth,
    total_gas_eth := st.total_gas_eth,
    current_price_eth := current_price_eth,
    current_holdings_eth := current_holdings_eth,
    current_holdings_usd := current_holdings_usd,
    realized_pnl_eth := realized_pnl_eth,
    realized_pnl_usd := realized_pnl_usd,
    unrealized_pnl_eth := unrealized_pnl_eth,
    unrealized_pnl_usd := unrealized_pnl_usd,
    total_pnl_eth := realized_pnl_eth + unrealized_pnl_eth,
    total_pnl_usd := realized_pnl_usd + unrealized_pnl_usd,
    eth_price_usd := eth_price_usd,
    transactions := st.transactions }

/-- analyze_pnl: an error of the transfer feed is re-raised with the
Failed-to-analyze prefix; an empty transfer list yields the explicit
no-activity result (none); otherwise the batch is folded and finalised into
the report. -/
def analyze_pnl (env : Env) (wallet_address token_address : String) :
    Except String (Option PnlReport) :=
  match env.transfersResult with
  | Except.error msg => Except.error ("Failed to analyze token: " ++ msg)
  | Except.ok transfers =>
    if transfers.isEmpty then Except.ok none
    else Except.ok (some (buildReport env wallet_address token_address transfers))

/-! ## Concrete environments for witnesses and counterexamples -/

/-- The empty environment: every external call returns nothing. -/
def env0 : Env :=
  { txByHash := fun _ => none,
    receipt := fun _ => none,
    internalTxs := fun _ => [],
    tokenTxByHash := fun _ => [],
    txFetchError := fun _ => false,
    transfersResult := Except.ok [],
    tokenInfo := none,
    balanceResult := none,
    tokenPrice := none,
    ethPriceUsd := none }

/-- Environment whose transfer feed fails with a transport error. -/
def envC9 : Env :=
  { env0 with transfersResult :=
      Except.error "Etherscan API request timed out. Please try again later." }

/-- Environment with one transaction carrying only internal value. -/
def envC5 : Env :=
  { env0 with
    txByHash := fun h => if h = "0xt5" then some { valueWei := 0, inputData := "" } else none,
    internalTxs := fun h => if h = "0xt5" then [{ valueWei := 7 * 10 ^ 17 }] else [] }

/-! ## Claim C10 -/

/-- Claim C10: for every amount and every address that is not a recognised
stable asset, the stablecoin-to-ETH conversion returns the amount
unchanged. -/
theorem claim_C10_unrecognized_address_identity (env : Env) (amount : ℚ) (address : String)
    (h : is_stablecoin address = false) :
    convert_stablecoin_to_eth env amount address = amount := by
  unfold convert_stablecoin_to_eth
  simp [h]

/-- Witness for claim C10 at a concrete unrecognised address. -/
theorem claim_C10_witness :
    is_stablecoin "0xdeadbeef" = false ∧
    convert_stablecoin_to_eth env0 5 "0xdeadbeef" = 5 :=
  ⟨by decide, claim_C10_unrecognized_address_identity env0 5 "0xdeadbeef" (by decide)⟩

/-! ## Claim C5 -/

/-- Claim C5: when the classified intent is sell and the internal value is
positive, or otherwise when the direct value is zero and the internal value
is positive, the resolved value of the transaction equals the internal
value. -/
theorem claim_C5_internal_value_resolution (env : Env) (txHash : String)
    (herr : env.txFetchError txHash = false)
    (hpos : 0 < internalValueOf env txHash)
    (hcase : txTypeOf env txHash = "sell" ∨ directEthValue env txHash = 0) :
    (get_transaction env txHash).eth_value = internalValueOf env txHash := by
  have h1 : totalValueAfterSell env txHash = internalValueOf env txHash ∨
      totalValueAfterSell env txHash = 0 := by
    unfold totalValueAfterSell
    rcases hcase with hs | hd
    · left; rw [if_pos ⟨hs, hpos⟩]
    · by_cases hc : txTypeOf env txHash = "sell" ∧ 0 < internalValueOf env txHash
      · left; rw [if_pos hc]
      · right; rw [if_neg hc]; exact hd
  have hz : totalValueAfterZero env txHash = internalValueOf env txHash := by
    unfold totalValueAfterZero
    rcases h1 with he | h0
    · rw [he]
      by_cases hc : internalValueOf env txHash = 0 ∧ 0 < internalValueOf env txHash
      · rw [if_pos hc]
      · rw [if_neg hc]
    · rw [h0, if_pos ⟨rfl, hpos⟩]
  show resolvedTxValue env txHash = internalValueOf env txHash
  unfold resolvedTxValue
  rw [if_neg (by simp [herr]), hz, if_neg (ne_of_gt hpos)]

/-- Witness for claim C5: a transaction with zero direct value and positive
internal value resolves to the internal value. -/
theorem claim_C5_witness :
    envC5.txFetchError "0xt5" = false ∧
    0 < internalValueOf envC5 "0xt5" ∧
    directEthValue envC5 "0xt5" = 0 ∧
    (get_transaction envC5 "0xt5").eth_value = internalValueOf envC5 "0xt5" :=
  ⟨rfl, by decide, by decide,
    claim_C5_internal_value_resolution envC5 "0xt5" rfl (by decide) (Or.inr (by decide))⟩

/-! ## Claim C6 -/

/-- Claim C6: with no direct value and no internal value the resolver
returns the nominal placeholder, never zero; the placeholder is also
returned when a data-source error occurs during resolution. -/
theorem claim_C6_placeholder_never_zero (env : Env) (txHash : String)
    (h : env.txFetchError txHash = true ∨
         (directEthValue env txHash = 0 ∧ internalValueOf env txHash = 0)) :
    (get_transaction env txHash).eth_value = defaultTxValue ∧
    (get_transaction env txHash).eth_value ≠ 0 := by
  have hval : (get_transaction env txHash).eth_value = defaultTxValue := by
    show resolvedTxValue env txHash = defaultTxValue
    unfold resolvedTxValue
    rcases h with herr | ⟨hd, hi⟩
    · rw [if_pos herr]
    · have hz : totalValueAfterZero env txHash = 0 := by
        unfold totalValueAfterZero totalValueAfterSell
        rw [hi]
        simp [hd]
      by_cases herr2 : env.txFetchError txHash = true
      · rw [if_pos herr2]
      · rw [if_neg herr2, if_pos hz]
  refine ⟨hval, ?_⟩
  rw [hval]
  unfold defaultTxValue
  norm_num

/-- Witness for claim C6: the empty environment yields the placeholder. -/
theorem claim_C6_witness :
    (directEthValue env0 "0xt6" = 0 ∧ internalValueOf env0 "0xt6" = 0) ∧
    ((get_transaction env0 "0xt6").eth_value = defaultTxValue ∧
     (get_transaction env0 "0xt6").eth_value ≠ 0) :=
  ⟨⟨rfl, rfl⟩, claim_C6_placeholder_never_zero env0 "0xt6" (Or.inr ⟨rfl, rfl⟩)⟩

/-! ## Claim C8 -/

/-- Claim C8: when the ledger collaborator returns zero transfers, the
analysis call returns the explicit no-activity result (none), not an
error. -/
theorem claim_C8_empty_transfers_no_activity (env : Env) (w t : String)
    (h : env.transfersResult = Except.ok []) :
    analyze_pnl env w t = Except.ok none := by
  unfold analyze_pnl
  rw [h]
  rfl

/-- Witness for claim C8 at the empty environment. -/
theorem claim_C8_witness :
    env0.transfersResult = Except.ok [] ∧
    analyze_pnl env0 "0xw" "0xa" = Except.ok none :=
  ⟨rfl, claim_C8_empty_transfers_no_activity env0 "0xw" "0xa" rfl⟩

/-! ## Claim C9 -/

/-- Counterexample to claim C9: on a transport error of the transfer feed,
analyze_pnl does not return a result at all, it re-raises the failure (an
exception does propagate out of the analysis call). -/
theorem claim_C9_counterexample :
    analyze_pnl envC9 "0xw" "0xa" =
      Except.error
        "Failed to analyze token: Etherscan API request timed out. Please try again later." ∧
    ¬ ∃ r : Option PnlReport, analyze_pnl envC9 "0xw" "0xa" = Except.ok r := by
  refine ⟨rfl, ?_⟩
  rintro ⟨r, hr⟩
  have h1 : analyze_pnl envC9 "0xw" "0xa" =
      Except.error
        "Failed to analyze token: Etherscan API request timed out. Please try again later." := rfl
  rw [h1] at hr
  exact Except.noConfusion hr

/-- Claim C9 as amended: a transport error of the transfer feed propagates
out of analyze_pnl as an exception carrying the Failed-to-analyze prefix
(the enclosing application layer catches it, so the process survives, but
the analysis call itself raises). -/
theorem claim_C9_amended_error_propagates (env : Env) (w t msg : String)
    (h : env.transfersResult = Except.error msg) :
    analyze_pnl env w t = Except.error ("Failed to analyze token: " ++ msg) := by
  unfold analyze_pnl
  rw [h]

/-- Witness for the amended claim C9. -/
theorem claim_C9_witness :
    envC9.transfersResult =
      Except.error "Etherscan API request timed out. Please try again later." ∧
    analyze_pnl envC9 "0xw2" "0xa2" =
      Except.error
        ("Failed to analyze token: " ++ "Etherscan API request timed out. Please try again later.") :=
  ⟨rfl, claim_C9_amended_error_propagates envC9 "0xw2" "0xa2"
    "Etherscan API request timed out. Please try again later." rfl⟩

/-! ## Claim C3 -/

/-- Every buy-set method signature is present in the recognised method
signature table (so its transaction classifies before any fallback). -/
theorem buy_methods_in_signatures {s : String} (hs : buy_methods.contains s = true) :
    (method_signatures.lookup s).isSome = true := by
  have hmem : s ∈ buy_methods := by simpa using hs
  fin_cases hmem <;> decide

/-- A call input carrying a buy-set signature classifies as buy from the
signature alone. -/
theorem txTypeFromSig_buy {input : String} (hlen : 10 ≤ strLen input)
    (hbuy : buy_methods.contains (strTake input 10) = true) :
    txTypeFromSig input = "buy" := by
  unfold txTypeFromSig methodSigOf
  rw [if_pos hlen]
  have hmem : strTake input 10 ∈ buy_methods := by simpa using hbuy
  simp [buy_methods_in_signatures hbuy, hmem]

/-- Claim C3: a transaction whose method signature is in the known buy set
classifies as buy, even when the stable-asset flow in the same transaction
(positive stablecoin inflow together with an outgoing tracked-token leg)
would, by the stable-asset-flow rule alone, suggest sell. -/
theorem claim_C3_method_signature_precedence (env : Env)
    (txHash walletAddress tokenAddress scAddr : String) (tr : TxRecord)
    (htx : env.txByHash txHash = some tr)
    (herr : env.txFetchError txHash = false)
    (hlen : 10 ≤ strLen tr.inputData)
    (hbuy : buy_methods.contains (strTake tr.inputData 10) = true)
    (_hsc : stablecoinAddressOf env txHash = some scAddr)
    (_hscSell : 0 < stablecoinAmountOf env txHash (strLower walletAddress) scAddr)
    (hout : 0 < outgoingCount
      (ourTokenTransfers env txHash (strLower walletAddress) (strLower tokenAddress))
      (strLower walletAddress)) :
    (analyze_transaction_type env txHash walletAddress tokenAddress).1 = "buy" := by
  have hsig : txTypeOf env txHash = "buy" := by
    unfold txTypeOf
    rw [htx]
    exact txTypeFromSig_buy hlen hbuy
  have htype : (get_transaction env txHash).tx_type = "buy" := by
    show (if env.txFetchError txHash then "unknown" else txTypeOf env txHash) = "buy"
    rw [if_neg (by simp [herr])]
    exact hsig
  have hne : (ourTokenTransfers env txHash (strLower walletAddress)
      (strLower tokenAddress)).isEmpty = false := by
    cases hl : ourTokenTransfers env txHash (strLower walletAddress) (strLower tokenAddress) with
    | nil =>
      rw [hl] at hout
      simp [outgoingCount] at hout
    | cons x xs => rfl
  simp only [analyze_transaction_type]
  rw [hne]
  simp only [Bool.false_eq_true, if_false]
  simp only [classifiedTxType]
  rw [htype]
  simp

/-- Transaction record for the C3 witness: a swapExactETHForTokens call. -/
def trC3 : TxRecord := { valueWei := 0, inputData := "0x7ff36ab5" }

/-- USDC address, lowercase. -/
def usdcAddress : String := "0xa0b86991c6218b36c1d19d4a2e9eb0ce3606eb48"

/-- Tracked-token leg sent by the wallet in the C3 witness transaction. -/
def legC3out : TransferLeg :=
  { hash := "0xt3", contractAddress := "0xa", fromAddr := "0xw", toAddr := "0xp",
    value := 50, tokenDecimal := some 0, timeStamp := 10, gasUsed := 0, gasPrice := 0 }

/-- Stablecoin leg received by the wallet in the C3 witness transaction. -/
def legC3sc : TransferLeg :=
  { hash := "0xt3", contractAddress := usdcAddress, fromAddr := "0xp", toAddr := "0xw",
    value := 5000000, tokenDecimal := some 6, timeStamp := 10, gasUsed := 0, gasPrice := 0 }

/-- Environment for the C3 witness: a buy-signature transaction in which
the wallet receives a stablecoin and sends the tracked token (a flow the
stable-asset rule alone would call a sell). -/
def envC3 : Env :=
  { env0 with
    txByHash := fun h => if h = "0xt3" then some trC3 else none,
    receipt := fun h =>
      if h = "0xt3" then
        some { statusOk := true,
               logs := [{ address := usdcAddress, topics := [transferTopic, "0xf", "0xg"] }] }
      else none,
    tokenTxByHash := fun h => if h = "0xt3" then [legC3out, legC3sc] else [] }

/-- Witness for claim C3 at the concrete buy-signature transaction. -/
theorem claim_C3_witness :
    envC3.txByHash "0xt3" = some trC3 ∧
    envC3.txFetchError "0xt3" = false ∧
    10 ≤ strLen trC3.inputData ∧
    buy_methods.contains (strTake trC3.inputData 10) = true ∧
    stablecoinAddressOf envC3 "0xt3" = some usdcAddress ∧
    0 < stablecoinAmountOf envC3 "0xt3" "0xw" usdcAddress ∧
    0 < outgoingCount (ourTokenTransfers envC3 "0xt3" "0xw" "0xa") "0xw" ∧
    (analyze_transaction_type envC3 "0xt3" "0xw" "0xa").1 = "buy" :=
  ⟨by decide, by decide, by decide, by decide, by decide, by decide, by decide,
    claim_C3_method_signature_precedence envC3 "0xt3" "0xw" "0xa" usdcAddress trC3
      (by decide) (by decide) (by decide) (by decide) (by decide) (by decide) (by decide)⟩

/-! ## Claim C4 -/

/-- The accumulation loop of the classifier sums the amount of every leg
that touches the wallet on either side. -/
theorem foldl_amount_touching (w : String) (legs : List TransferLeg) :
    ∀ a : ℚ, (∀ l ∈ legs, strLower l.toAddr = w ∨ strLower l.fromAddr = w) →
      List.foldl (fun acc t =>
          if strLower t.toAddr = w then acc + legAmount t 18
          else if strLower t.fromAddr = w then acc + legAmount t 18
          else acc) a legs
        = a + (legs.map (fun t => legAmount t 18)).sum := by
  induction legs with
  | nil => intro a _; simp
  | cons x xs ih =>
    intro a h
    have hx := h x (List.mem_cons_self x xs)
    have hxs : ∀ l ∈ xs, strLower l.toAddr = w ∨ strLower l.fromAddr = w :=
      fun l hl => h l (List.mem_cons_of_mem x hl)
    simp only [List.foldl_cons, List.map_cons, List.sum_cons]
    rcases hx with hto | hfrom
    · rw [if_pos hto, ih (a + legAmount x 18) hxs]; ring
    · by_cases hto : strLower x.toAddr = w
      · rw [if_pos hto, ih (a + legAmount x 18) hxs]; ring
      · rw [if_neg hto, if_pos hfrom, ih (a + legAmount x 18) hxs]; ring

/-- Claim C4 as amended: the tokenAmount returned by the classifier is the
sum of the tracked-token leg amounts touching the wallet in either
direction (incoming and outgoing together, each leg counted once), whatever
rule fired; it is zero when no such leg exists. -/
theorem claim_C4_amended_token_amount (env : Env)
    (txHash walletAddress tokenAddress : String) :
    (analyze_transaction_type env txHash walletAddress tokenAddress).2 =
      ((ourTokenTransfers env txHash (strLower walletAddress) (strLower tokenAddress)).map
        (fun t => legAmount t 18)).sum := by
  simp only [analyze_transaction_type]
  by_cases hemp : (ourTokenTransfers env txHash (strLower walletAddress)
      (strLower tokenAddress)).isEmpty = true
  · rw [if_pos hemp]
    have hnil : ourTokenTransfers env txHash (strLower walletAddress)
        (strLower tokenAddress) = [] := by
      cases hl : ourTokenTransfers env txHash (strLower walletAddress)
          (strLower tokenAddress) with
      | nil => rfl
      | cons x xs => rw [hl] at hemp; simp at hemp
    rw [hnil]
    simp
  · rw [if_neg hemp]
    show classifierTokenAmount
        (ourTokenTransfers env txHash (strLower walletAddress) (strLower tokenAddress))
        (strLower walletAddress) = _
    have hall : ∀ l ∈ ourTokenTransfers env txHash (strLower walletAddress)
        (strLower tokenAddress),
        strLower l.toAddr = strLower walletAddress ∨
        strLower l.fromAddr = strLower walletAddress := by
      intro l hl
      unfold ourTokenTransfers at hl
      have hp := List.of_mem_filter hl
      exact (of_decide_eq_true hp).2.symm
    unfold classifierTokenAmount
    rw [foldl_amount_touching (strLower walletAddress) _ 0 hall, zero_add]

/-- Incoming tracked-token leg of the C4 counterexample transaction. -/
def legC4in : TransferLeg :=
  { hash := "0xt4", contractAddress := "0xa", fromAddr := "0xp", toAddr := "0xw",
    value := 10, tokenDecimal := some 0, timeStamp := 5, gasUsed := 0, gasPrice := 0 }

/-- Outgoing tracked-token leg of the C4 counterexample transaction. -/
def legC4out : TransferLeg :=
  { hash := "0xt4", contractAddress := "0xa", fromAddr := "0xw", toAddr := "0xq",
    value := 5, tokenDecimal := some 0, timeStamp := 5, gasUsed := 0, gasPrice := 0 }

/-- Environment for the C4 counterexample: a buy-signature transaction
whose tracked-token legs touch the wallet in both directions. -/
def envC4 : Env :=
  { env0 with
    txByHash := fun h =>
      if h = "0xt4" then some { valueWei := 0, inputData := "0x7ff36ab5" } else none,
    tokenTxByHash := fun h => if h = "0xt4" then [legC4in, legC4out] else [] }

/-- Counterexample to claim C4 as stated: the intent is buy, yet the
returned tokenAmount (15) is not the sum of the incoming leg amounts (10);
the outgoing leg is counted as well. -/
theorem claim_C4_counterexample :
    (analyze_transaction_type envC4 "0xt4" "0xw" "0xa").1 = "buy" ∧
    (analyze_transaction_type envC4 "0xt4" "0xw" "0xa").2 = 15 ∧
    (((ourTokenTransfers envC4 "0xt4" "0xw" "0xa").filter
        (fun t => strLower t.toAddr = "0xw")).map (fun t => legAmount t 18)).sum = 10 ∧
    (15 : ℚ) ≠ 10 :=
  ⟨by decide, by decide, by decide, by decide⟩

/-! ## Claim C7 -/

/-- Claim C7: a transaction in which the wallet both sends and receives the
tracked token, with no recognised method signature and no recognised stable
asset involved, classifies as unknown; folding such a transaction leaves
tokensBought, tokensSold, valueIn and valueOut unchanged, while the
transaction still enters the report list tagged unknown. -/
theorem claim_C7_ambiguous_self_routing (env : Env)
    (txHash walletAddress tokenAddress : String)
    (hsig : (get_transaction env txHash).tx_type = "unknown")
    (hsc : ∀ tok ∈ (get_transaction env txHash).involved_tokens, is_stablecoin tok = false)
    (hin : 0 < incomingCount
      (ourTokenTransfers env txHash (strLower walletAddress) (strLower tokenAddress))
      (strLower walletAddress))
    (hout : 0 < outgoingCount
      (ourTokenTransfers env txHash (strLower walletAddress) (strLower tokenAddress))
      (strLower walletAddress)) :
    (analyze_transaction_type env txHash walletAddress tokenAddress).1 = "unknown" ∧
    ∀ (w t : String) (tokenDecimals : ℕ) (price : ℚ) (st : FoldState)
      (legs : List TransferLeg),
      (analyze_transaction_type env txHash w t).1 = "unknown" →
      legs.any (fun l => (strLower l.toAddr = w ∨ strLower l.fromAddr = w) ∧
        strLower l.contractAddress = t) = true →
      (processTxGroup env w t tokenDecimals price st (txHash, legs)).total_tokens_bought
          = st.total_tokens_bought ∧
      (processTxGroup env w t tokenDecimals price st (txHash, legs)).total_tokens_sold
          = st.total_tokens_sold ∧
      (processTxGroup env w t tokenDecimals price st (txHash, legs)).total_in_eth
          = st.total_in_eth ∧
      (processTxGroup env w t tokenDecimals price st (txHash, legs)).total_out_eth
          = st.total_out_eth ∧
      ∃ td : TxData,
        (processTxGroup env w t tokenDecimals price st (txHash, legs)).transactions
          = st.transactions ++ [td] ∧ td.txType = "unknown" ∧ td.hash = txHash := by
  have hscnone : stablecoinAddressOf env txHash = none := by
    unfold stablecoinAddressOf
    apply List.find?_eq_none.mpr
    intro x hx
    simp [hsc x hx]
  constructor
  · have hne : (ourTokenTransfers env txHash (strLower walletAddress)
        (strLower tokenAddress)).isEmpty = false := by
      cases hl : ourTokenTransfers env txHash (strLower walletAddress)
          (strLower tokenAddress) with
      | nil =>
        rw [hl] at hin
        simp [incomingCount] at hin
      | cons x xs => rfl
    simp only [analyze_transaction_type]
    rw [hne]
    simp only [Bool.false_eq_true, if_false]
    simp only [classifiedTxType]
    rw [hsig, hscnone]
    simp only [ne_eq, not_true_eq_false, if_false]
    rw [if_neg (by omega), if_neg (by omega)]
  · intro w t tokenDecimals price st legs hcls hrel
    unfold processTxGroup
    simp only [hrel, not_true_eq_false, Bool.false_eq_true, if_false, hcls]
    refine ⟨by simp, by simp, by simp, by simp, ?_⟩
    exact ⟨_, rfl, rfl, rfl⟩

/-- Incoming tracked-token leg of the C7 witness transaction. -/
def legC7in : TransferLeg :=
  { hash := "0xt7", contractAddress := "0xa", fromAddr := "0xp", toAddr := "0xw",
    value := 8, tokenDecimal := some 0, timeStamp := 9, gasUsed := 0, gasPrice := 0 }

/-- Outgoing tracked-token leg of the C7 witness transaction. -/
def legC7out : TransferLeg :=
  { hash := "0xt7", contractAddress := "0xa", fromAddr := "0xw", toAddr := "0xq",
    value := 3, tokenDecimal := some 0, timeStamp := 9, gasUsed := 0, gasPrice := 0 }

/-- Environment for the C7 witness: a signatureless transaction whose
tracked-token legs touch the wallet in both directions, with no stable
asset anywhere. -/
def envC7 : Env :=
  { env0 with
    txByHash := fun h =>
      if h = "0xt7" then some { valueWei := 0, inputData := "" } else none,
    tokenTxByHash := fun h => if h = "0xt7" then [legC7in, legC7out] else [] }

/-- Witness for claim C7 at the concrete ambiguous transaction. -/
theorem claim_C7_witness :
    (get_transaction envC7 "0xt7").tx_type = "unknown" ∧
    0 < incomingCount (ourTokenTransfers envC7 "0xt7" "0xw" "0xa") "0xw" ∧
    0 < outgoingCount (ourTokenTransfers envC7 "0xt7" "0xw" "0xa") "0xw" ∧
    (analyze_transaction_type envC7 "0xt7" "0xw" "0xa").1 = "unknown" ∧
    ((processTxGroup envC7 "0xw" "0xa" 18 0 initialFoldState
        ("0xt7", [legC7in, legC7out])).total_tokens_bought
      = initialFoldState.total_tokens_bought ∧
     (processTxGroup envC7 "0xw" "0xa" 18 0 initialFoldState
        ("0xt7", [legC7in, legC7out])).total_tokens_sold
      = initialFoldState.total_tokens_sold ∧
     (processTxGroup envC7 "0xw" "0xa" 18 0 initialFoldState
        ("0xt7", [legC7in, legC7out])).total_in_eth
      = initialFoldState.total_in_eth ∧
     (processTxGroup envC7 "0xw" "0xa" 18 0 initialFoldState
        ("0xt7", [legC7in, legC7out])).total_out_eth
      = initialFoldState.total_out_eth ∧
     ∃ td : TxData,
       (processTxGroup envC7 "0xw" "0xa" 18 0 initialFoldState
          ("0xt7", [legC7in, legC7out])).transactions
         = initialFoldState.transactions ++ [td] ∧
       td.txType = "unknown" ∧ td.hash = "0xt7") := by
  have hsc : ∀ tok ∈ (get_transaction envC7 "0xt7").involved_tokens,
      is_stablecoin tok = false := by
    intro tok htok
    rw [show (get_transaction envC7 "0xt7").involved_tokens = ([] : List String)
      from by decide] at htok
    exact absurd htok (List.not_mem_nil tok)
  have main := claim_C7_ambiguous_self_routing envC7 "0xt7" "0xw" "0xa"
    (by decide) hsc (by decide) (by decide)
  exact ⟨by decide, by decide, by decide, main.1,
    main.2 "0xw" "0xa" 18 0 initialFoldState [legC7in, legC7out] main.1 (by decide)⟩

/-! ## Claim C1 -/

/-- A scaled leg amount is never negative (raw values are naturals). -/
theorem legAmount_nonneg (t : TransferLeg) (d : ℕ) : 0 ≤ legAmount t d := by
  unfold legAmount
  positivity

/-- A conditional accumulation of non-negative amounts stays non-negative. -/
theorem foldl_cond_add_nonneg (f : TransferLeg → ℚ) (hf : ∀ t, 0 ≤ f t)
    (p : TransferLeg → Prop) [DecidablePred p] :
    ∀ (legs : List TransferLeg) (a : ℚ), 0 ≤ a →
      0 ≤ legs.foldl (fun acc t => if p t then acc + f t else acc) a := by
  intro legs
  induction legs with
  | nil => intro a ha; simpa using ha
  | cons x xs ih =>
    intro a ha
    simp only [List.foldl_cons]
    by_cases hx : p x
    · rw [if_pos hx]
      exact ih _ (by have := hf x; linarith)
    · rw [if_neg hx]
      exact ih _ ha

/-- The bought amount of a grouped transaction is non-negative. -/
theorem buyAmountIn_nonneg (grp : List TransferLeg) (wallet token : String) (d : ℕ) :
    0 ≤ buyAmountIn grp wallet token d := by
  unfold buyAmountIn
  exact foldl_cond_add_nonneg (fun t => legAmount t d) (fun t => legAmount_nonneg t d)
    (fun t => strLower t.toAddr = wallet ∧ strLower t.contractAddress = token)
    grp 0 le_rfl

/-- The sold amount of a grouped transaction is non-negative. -/
theorem sellAmountOut_nonneg (grp : List TransferLeg) (wallet token : String) (d : ℕ) :
    0 ≤ sellAmountOut grp wallet token d := by
  unfold sellAmountOut
  exact foldl_cond_add_nonneg (fun t => legAmount t d) (fun t => legAmount_nonneg t d)
    (fun t => strLower t.fromAddr = wallet ∧ strLower t.contractAddress = token)
    grp 0 le_rfl

/-- One fold step either keeps total_tokens_bought or adds the bought
amount of its group. -/
theorem processTxGroup_bought (env : Env) (w t : String) (d : ℕ) (price : ℚ)
    (st : FoldState) (g : String × List TransferLeg) :
    (processTxGroup env w t d price st g).total_tokens_bought = st.total_tokens_bought ∨
    (processTxGroup env w t d price st g).total_tokens_bought
      = st.total_tokens_bought + buyAmountIn g.2 w t d := by
  unfold processTxGroup
  dsimp only
  split_ifs <;> simp

/-- One fold step either keeps total_tokens_sold or adds the sold amount of
its group. -/
theorem processTxGroup_sold (env : Env) (w t : String) (d : ℕ) (price : ℚ)
    (st : FoldState) (g : String × List TransferLeg) :
    (processTxGroup env w t d price st g).total_tokens_sold = st.total_tokens_sold ∨
    (processTxGroup env w t d price st g).total_tokens_sold
      = st.total_tokens_sold + sellAmountOut g.2 w t d := by
  unfold processTxGroup
  dsimp only
  split_ifs <;> simp

/-- Non-negativity of total_tokens_bought is preserved by the whole
transaction loop. -/
theorem foldl_bought_nonneg (env : Env) (w t : String) (d : ℕ) (price : ℚ) :
    ∀ (gs : List (String × List TransferLeg)) (st : FoldState),
      0 ≤ st.total_tokens_bought →
      0 ≤ (gs.foldl (processTxGroup env w t d price) st).total_tokens_bought := by
  intro gs
  induction gs with
  | nil => intro st h; simpa using h
  | cons g gs ih =>
    intro st h
    simp only [List.foldl_cons]
    apply ih
    rcases processTxGroup_bought env w t d price st g with he | he
    · rw [he]; exact h
    · rw [he]
      have := buyAmountIn_nonneg g.2 w t d
      linarith

/-- Non-negativity of total_tokens_sold is preserved by the whole
transaction loop. -/
theorem foldl_sold_nonneg (env : Env) (w t : String) (d : ℕ) (price : ℚ) :
    ∀ (gs : List (String × List TransferLeg)) (st : FoldState),
      0 ≤ st.total_tokens_sold →
      0 ≤ (gs.foldl (processTxGroup env w t d price) st).total_tokens_sold := by
  intro gs
  induction gs with
  | nil => intro st h; simpa using h
  | cons g gs ih =>
    intro st h
    simp only [List.foldl_cons]
    apply ih
    rcases processTxGroup_sold env w t d price st g with he | he
    · rw [he]; exact h
    · rw [he]
      have := sellAmountOut_nonneg g.2 w t d
      linarith

/-- Claim C1 as amended: in every produced report tokensBought and
tokensSold are non-negative, and currentBalance is the externally fetched
on-chain balance (zero when the balance call fails), not the difference
tokensBought minus tokensSold. -/
theorem claim_C1_amended_balance_and_nonneg (env : Env) (w t : String) (r : PnlReport)
    (h : analyze_pnl env w t = Except.ok (some r)) :
    0 ≤ r.total_tokens_bought ∧ 0 ≤ r.total_tokens_sold ∧
    r.current_balance = env.balanceResult.getD 0 := by
  unfold analyze_pnl at h
  rcases henv : env.transfersResult with msg | transfers
  · rw [henv] at h
    simp at h
  · rw [henv] at h
    dsimp only at h
    by_cases hemp : transfers.isEmpty
    · rw [if_pos hemp] at h
      simp at h
    · rw [if_neg hemp] at h
      have hr : r = buildReport env w t transfers := by
        have h2 := h
        simp only [Except.ok.injEq, Option.some.injEq] at h2
        exact h2.symm
      subst hr
      refine ⟨?_, ?_, rfl⟩
      · show 0 ≤ (pnlFold env (strLower w) (strLower t)
          (env.tokenInfo.getD ("Unknown Token", "????", 18)).2.2
          (currentPriceEthOf env) transfers).total_tokens_bought
        unfold pnlFold
        exact foldl_bought_nonneg env (strLower w) (strLower t) _ _ _ initialFoldState le_rfl
      · show 0 ≤ (pnlFold env (strLower w) (strLower t)
          (env.tokenInfo.getD ("Unknown Token", "????", 18)).2.2
          (currentPriceEthOf env) transfers).total_tokens_sold
        unfold pnlFold
        exact foldl_sold_nonneg env (strLower w) (strLower t) _ _ _ initialFoldState le_rfl

/-- The single buy leg of the C1 counterexample run. -/
def legC1buy : TransferLeg :=
  { hash := "0xt1", contractAddress := "0xa", fromAddr := "0xp", toAddr := "0xw",
    value := 100, tokenDecimal := some 0, timeStamp := 1, gasUsed := 0, gasPrice := 0 }

/-- Environment for the C1 counterexample: one buy of 100 tokens, while the
balance call reports 0 (the on-chain balance is what the report carries,
independent of the bought-minus-sold difference). -/
def envC1 : Env :=
  { env0 with
    txByHash := fun h =>
      if h = "0xt1" then some { valueWei := 10 ^ 18, inputData := "" } else none,
    tokenTxByHash := fun h => if h = "0xt1" then [legC1buy] else [],
    transfersResult := Except.ok [legC1buy],
    tokenInfo := some ("Token A", "A", 0),
    balanceResult := some 0 }

/-- Counterexample to claim C1 as stated: a report with tokensBought = 100,
tokensSold = 0 whose currentBalance is 0, not 100: currentBalance comes
from the balanceOf call, not from the bought-minus-sold identity. -/
theorem claim_C1_counterexample :
    analyze_pnl envC1 "0xw" "0xa" =
      Except.ok (some (buildReport envC1 "0xw" "0xa" [legC1buy])) ∧
    (buildReport envC1 "0xw" "0xa" [legC1buy]).total_tokens_bought = 100 ∧
    (buildReport envC1 "0xw" "0xa" [legC1buy]).total_tokens_sold = 0 ∧
    (buildReport envC1 "0xw" "0xa" [legC1buy]).current_balance = 0 ∧
    (buildReport envC1 "0xw" "0xa" [legC1buy]).current_balance ≠
      (buildReport envC1 "0xw" "0xa" [legC1buy]).total_tokens_bought -
      (buildReport envC1 "0xw" "0xa" [legC1buy]).total_tokens_sold :=
  ⟨by decide, by decide, by decide, by decide, by decide⟩

/-- Witness for the amended claim C1 at the concrete one-buy run. -/
theorem claim_C1_witness :
    analyze_pnl envC1 "0xw2" "0xa" =
      Except.ok (some (buildReport envC1 "0xw2" "0xa" [legC1buy])) ∧
    (0 ≤ (buildReport envC1 "0xw2" "0xa" [legC1buy]).total_tokens_bought ∧
     0 ≤ (buildReport envC1 "0xw2" "0xa" [legC1buy]).total_tokens_sold ∧
     (buildReport envC1 "0xw2" "0xa" [legC1buy]).current_balance
       = envC1.balanceResult.getD 0) :=
  ⟨by decide,
    claim_C1_amended_balance_and_nonneg envC1 "0xw2" "0xa" _ (by decide)⟩

/-! ## Claim C2 -/

/-- The buy leg of the C2 concrete scenario (transaction T1, timestamp
100, 100 units in). -/
def legC2buy : TransferLeg :=
  { hash := "0xT1", contractAddress := "0xa", fromAddr := "0xp", toAddr := "0xw",
    value := 100, tokenDecimal := some 0, timeStamp := 100, gasUsed := 0, gasPrice := 0 }

/-- The sell leg of the C2 concrete scenario (transaction T2, timestamp
200, 40 units out). -/
def legC2sell : TransferLeg :=
  { hash := "0xT2", contractAddress := "0xa", fromAddr := "0xw", toAddr := "0xp",
    value := 40, tokenDecimal := some 0, timeStamp := 200, gasUsed := 0, gasPrice := 0 }

/-- Environment for the C2 concrete scenario: T1 carries a direct value of
1 ETH, T2 a direct value of 0.6 ETH; the wallet ends the scenario holding
60 units, which is what the balance call reports. -/
def envC2 : Env :=
  { env0 with
    txByHash := fun h =>
      if h = "0xT1" then some { valueWei := 10 ^ 18, inputData := "" }
      else if h = "0xT2" then some { valueWei := 6 * 10 ^ 17, inputData := "" }
      else none,
    tokenTxByHash := fun h =>
      if h = "0xT1" then [legC2buy]
      else if h = "0xT2" then [legC2sell]
      else [],
    transfersResult := Except.ok [legC2buy, legC2sell],
    tokenInfo := some ("Asset A", "A", 0),
    balanceResult := some 60,
    tokenPrice := some (1 / 100),
    ethPriceUsd := some 2000 }

/-- Claim C2: on the concrete buy-100-for-1, sell-40-for-0.6 scenario the
report has tokensBought = 100, tokensSold = 40, currentBalance = 60, cost
basis valueIn / tokensBought = 1/100 = 0.01, and realized PnL
0.6 - 40 * 0.01 = 0.2 (average-cost accounting). -/
theorem claim_C2_concrete_scenario :
    analyze_pnl envC2 "0xw" "0xa" =
      Except.ok (some (buildReport envC2 "0xw" "0xa" [legC2buy, legC2sell])) ∧
    (buildReport envC2 "0xw" "0xa" [legC2buy, legC2sell]).total_tokens_bought = 100 ∧
    (buildReport envC2 "0xw" "0xa" [legC2buy, legC2sell]).total_tokens_sold = 40 ∧
    (buildReport envC2 "0xw" "0xa" [legC2buy, legC2sell]).current_balance = 60 ∧
    (buildReport envC2 "0xw" "0xa" [legC2buy, legC2sell]).total_in_eth /
      (buildReport envC2 "0xw" "0xa" [legC2buy, legC2sell]).total_tokens_bought = 1 / 100 ∧
    (buildReport envC2 "0xw" "0xa" [legC2buy, legC2sell]).realized_pnl_eth = 1 / 5 :=
  ⟨by decide, by decide, by decide, by decide, by decide, by decide⟩

end EthPnl
